import Mathlib

/-
Verification of the agent core of the owl CLI agent: the security manager
(src/cli/security.py), the sequential command executor (src/cli/executor.py),
the response parser (src/cli/api.py) and the orchestration loop
(src/cli/agent.py), shallowly embedded in Lean.  External effects (child
processes, tool functions, the generation service, user prompts) are passed in
as explicit function parameters; everything else is transcribed from the
source.
-/

namespace Owl

/-- Python str.startswith: the second string is a literal prefix of the first. -/
def pyStartswith (s p : String) : Bool :=
  p.data.isPrefixOf s.data

/-- Python str.lower restricted to ASCII (every string the source lowercases is
an ASCII command or blacklist word). -/
def pyLower (s : String) : String :=
  String.mk (s.data.map Char.toLower)

/-- Helper for `pySplit`: accumulates the current token (reversed) and emits it
at each whitespace run boundary. -/
def splitWsAux : List Char → List Char → List String
  | [], acc => if acc.isEmpty then [] else [String.mk acc.reverse]
  | c :: cs, acc =>
    if c.isWhitespace then
      (if acc.isEmpty then [] else [String.mk acc.reverse]) ++ splitWsAux cs []
    else splitWsAux cs (c :: acc)

/-- Python str.split() with no separator: split on whitespace runs, discarding
empty pieces (used on command strings in security.py line 60). -/
def pySplit (s : String) : List String :=
  splitWsAux s.data []

/-- Helper for `pySplitOn`: fuel-indexed splitting on a literal separator,
scanning left to right without overlap.  The fuel is the length of the input,
so the fuel-exhaustion branch is unreachable. -/
def splitOnSubAux (sep : List Char) : Nat → List Char → List Char → List String
  | _, [], acc => [String.mk acc.reverse]
  | 0, l, acc => [String.mk (acc.reverse ++ l)]
  | fuel + 1, c :: cs, acc =>
    if sep ≠ [] ∧ sep.isPrefixOf (c :: cs) then
      String.mk acc.reverse :: splitOnSubAux sep fuel ((c :: cs).drop sep.length) []
    else
      splitOnSubAux sep fuel cs (c :: acc)

/-- Python str.split(sep) for a non-empty literal separator, keeping empty
pieces (used for '/' in path normalization and for the fenced-code markers in
the response parser). -/
def pySplitOn (s sep : String) : List String :=
  splitOnSubAux sep.data s.data.length s.data []

/-- Python `sep in s` membership test: splitting on the separator yields more
than one piece. -/
def pyContains (s sep : String) : Bool :=
  decide (2 ≤ (pySplitOn s sep).length)

/-- Loop body of posixpath.normpath: `..` is appended when there is no root and
nothing to pop (or the previous component is itself `..`), otherwise it pops. -/
def normpathStep (rooted : Bool) (acc : List String) (comp : String) : List String :=
  if comp ≠ ".." then acc ++ [comp]
  else if (!rooted && acc.isEmpty) || (!acc.isEmpty && acc.getLast? = some "..") then
    acc ++ [comp]
  else if !acc.isEmpty then acc.dropLast
  else acc

/-- posixpath.normpath: collapse empty and `.` components, resolve `..`,
preserving a double (but not triple) leading slash. -/
def posixNormpath (path : String) : String :=
  if path = "" then "." else
  let initialSlashes :=
    if pyStartswith path "//" && !pyStartswith path "///" then "//"
    else if pyStartswith path "/" then "/" else ""
  let comps := (pySplitOn path "/").filter (fun c => c ≠ "" && c ≠ ".")
  let newComps := comps.foldl (normpathStep (initialSlashes ≠ "")) []
  let joined := initialSlashes ++ String.intercalate "/" newComps
  if joined = "" then "." else joined

/-- posixpath.abspath with the working directory explicit:
normpath(join(cwd, path)).  `cwd` is assumed not to end in a slash (an extra
slash would be collapsed by normpath anyway). -/
def abspath (cwd path : String) : String :=
  if pyStartswith path "/" then posixNormpath path
  else posixNormpath (cwd ++ "/" ++ path)

/-- The `profile["security"]` mapping.  `Option Bool` fields model presence or
absence of the corresponding dict key; every read in the source goes through
`dict.get(key, default)`, modelled by `Option.getD`.  The list fields default
to `[]`, matching `.get(key, [])`. -/
structure SecurityPolicy where
  command_blacklist : List String := []
  file_access_blacklist : List String := []
  allow_shell_commands : Option Bool := none
  allow_tool_usage : Option Bool := none
deriving Repr, DecidableEq

/-- SecurityManager._get_default_policy (security.py lines 30-41). -/
def get_default_policy : SecurityPolicy :=
  { command_blacklist := ["rm", "del", "format", "mkfs", "shutdown", "reboot"]
    file_access_blacklist := ["/etc/shadow", "/etc/passwd", "C:\\Windows\\System32\\config"]
    allow_shell_commands := some true
    allow_tool_usage := some true }

/-- The `details` argument of is_action_allowed, tagged by `action_type`. -/
inductive ActionDetails where
  | shell (commands : List String)
  | tool (tool_name : String) (tool_args : List (String × String))
deriving Repr, DecidableEq

/-- Whether a single command string's program name (first whitespace token) is
on the blacklist, case-insensitively (security.py lines 60-67 inner loop). -/
def cmdIsBlacklisted (blacklist : List String) (cmd_str : String) : Bool :=
  match pySplit cmd_str with
  | [] => false
  | command :: _ => blacklist.any (fun b => pyLower command == pyLower b)

/-- The nested loop of the shell branch of is_action_allowed: the first command
whose program name matches the blacklist, returning that program name (which
the denial reason quotes).  Empty command strings are skipped by the
`continue`. -/
def firstBlacklistedCommand (blacklist : List String) : List String → Option String
  | [] => none
  | cmd_str :: rest =>
    match pySplit cmd_str with
    | [] => firstBlacklistedCommand blacklist rest
    | command :: _ =>
      if blacklist.any (fun b => pyLower command == pyLower b) then some command
      else firstBlacklistedCommand blacklist rest

/-- SecurityManager.is_action_allowed (security.py lines 43-84), returning
(is_allowed, reason).  The working directory parameter feeds `abspath`. -/
def is_action_allowed (cwd : String) (policy : SecurityPolicy) :
    ActionDetails → Bool × String
  | .shell commands =>
    if !(policy.allow_shell_commands.getD false) then
      (false, "Shell command execution is disabled by the security policy.")
    else
      match firstBlacklistedCommand policy.command_blacklist commands with
      | some command =>
        (false, "Command '" ++ command ++ "' is blacklisted by the security policy.")
      | none => (true, "Action is allowed.")
  | .tool tool_name tool_args =>
    if !(policy.allow_tool_usage.getD false) then
      (false, "Tool usage is disabled by the security policy.")
    else if tool_name ∈ (["read_file", "write_file", "monitor_file"] : List String) then
      let file_path := (tool_args.lookup "file_path").getD ""
      match policy.file_access_blacklist.find? (fun b =>
          pyStartswith (abspath cwd file_path) (abspath cwd b)) with
      | some _ =>
        (false, "Access to '" ++ file_path ++ "' is restricted by the security policy.")
      | none => (true, "Action is allowed.")
    else (true, "Action is allowed.")

/-- One entry of the list returned by execute_commands. -/
structure CmdResult where
  command : String
  success : Bool
  stdout : String
  stderr : String
deriving Repr, DecidableEq

/-- CommandExecutor.execute_commands (executor.py lines 66-92): run each
command in order, append its result, and break after the first failure.  The
child-process spawn of execute_command is abstracted as `run : command ↦
(success, stdout, stderr)`; execute_command never raises (its exception handler
returns a failed result), so a total function is faithful. -/
def execute_commands (run : String → Bool × String × String) :
    List String → List CmdResult
  | [] => []
  | command :: rest =>
    let r := run command
    let result : CmdResult := ⟨command, r.1, r.2.1, r.2.2⟩
    if r.1 then result :: execute_commands run rest
    else [result]

/-- A Python result dict as built by agent.py: the `success` flag plus the
remaining string-valued keys in insertion order.  A tool result that lacks a
"success" key is modelled by the tool function returning `success := false`,
which is what `tool_result.get("success", False)` yields. -/
structure ResultDict where
  success : Bool
  entries : List (String × String) := []
deriving Repr, DecidableEq

/-- Rendering of the non-success keys for Python str() of a dict. -/
def pyReprEntries : List (String × String) → String
  | [] => ""
  | (k, v) :: rest => ", '" ++ k ++ "': '" ++ v ++ "'" ++ pyReprEntries rest

/-- Python str() of a result dict (used by agent.py line 146 as the stdout
argument when the output dict has no "stdout" key). -/
def ResultDict.pyRepr (d : ResultDict) : String :=
  "\x7b'success': " ++ (if d.success then "True" else "False") ++
    pyReprEntries d.entries ++ "\x7d"

/-- The dict a shell CmdResult contributes when it is the single result
(agent.py line 220 takes `results[0]`). -/
def CmdResult.toDict (r : CmdResult) : ResultDict :=
  { success := r.success
    entries := [("command", r.command), ("stdout", r.stdout), ("stderr", r.stderr)] }

/-- One entry of Agent.history.  Absent keys are modelled by `""` / `[]`
defaults; no claim reads a key its entry does not set. -/
structure HistoryEntry where
  step : String := ""
  action : String
  commands : List String := []
  args : List (String × String) := []
  explanation : String := ""
  result : ResultDict
deriving Repr, DecidableEq

/-- The parsed generation-client response dict (the `cmd_response` of
agent.py).  `none` in an Option field models absence of the key; `commands`
models `.get("commands", [])` and `tool_args` models `.get("tool_args", {})`,
with tool argument values restricted to strings (the only ones the core ever
inspects). -/
structure CmdResponse where
  error : Option String := none
  commands : List String := []
  explanation : Option String := none
  tool : Option String := none
  tool_args : List (String × String) := []
deriving Repr, DecidableEq

/-- Python truthiness of `cmd_response.get("tool")` (agent.py line 83): falsy
when the key is absent or its value is the empty string. -/
def toolFalsy : Option String → Bool
  | none => true
  | some t => t == ""

/-- The `details` perform_action passes to the vetting engine for a response:
the tool branch is taken exactly when the "tool" key is present. -/
def responseDetails (response : CmdResponse) : ActionDetails :=
  match response.tool with
  | some tool_name => .tool tool_name response.tool_args
  | none => .shell response.commands

/-- Python repr of the tool_args dict, used in the failed-action description
f-string (agent.py line 138). -/
def pyReprArgs (args : List (String × String)) : String :=
  "\x7b" ++ String.intercalate ", "
    (args.map (fun kv => "'" ++ kv.1 ++ "': '" ++ kv.2 ++ "'")) ++ "\x7d"

/-- The collaborators and configuration of one Agent: the generation client
(generate_next_action and generate_correction), the tool module
(`hasTool` models `hasattr(tools, name)`, `runTool` the tool call), the
child-process spawner for the executor, the loaded security policy with the
working directory for path resolution, and the two Agent fields. -/
structure AgentEnv where
  genNext : List HistoryEntry → String → Option CmdResponse
  genCorrection : List HistoryEntry → String → String → String →
    Option String → Option CmdResponse
  hasTool : String → Bool
  runTool : String → List (String × String) → ResultDict
  runShell : String → Bool × String × String
  policy : SecurityPolicy
  cwd : String
  auto_approve : Bool
  max_retries : Nat := 3

/-- What one call of Agent._perform_action does: its return value
(success, output), the single history entry it appends, and — for the
frame facts the claims need — the shell results actually produced and the
tool actually invoked. -/
structure PerformResult where
  success : Bool
  output : ResultDict
  entry : HistoryEntry
  executed : List CmdResult := []
  toolInvoked : Option String := none
deriving Repr, DecidableEq

/-- Agent._perform_action (agent.py lines 156-225). -/
def perform_action (env : AgentEnv) (response : CmdResponse) : PerformResult :=
  let commands := response.commands
  let explanation := response.explanation.getD ""
  match response.tool with
  | some tool_name =>
    let tool_args := response.tool_args
    let vet := is_action_allowed env.cwd env.policy (.tool tool_name tool_args)
    if !vet.1 then
      let history_entry : ResultDict :=
        { success := false
          entries := [("output", "Action denied by security policy: " ++ vet.2)] }
      { success := false, output := history_entry
        entry := { action := "denied_tool:" ++ tool_name, args := tool_args
                   explanation := explanation, result := history_entry } }
    else if env.hasTool tool_name then
      let tool_result := env.runTool tool_name tool_args
      { success := tool_result.success, output := tool_result
        entry := { action := "tool:" ++ tool_name, args := tool_args
                   explanation := explanation, result := tool_result }
        toolInvoked := some tool_name }
    else
      let history_entry : ResultDict :=
        { success := false
          entries := [("output", "Tool '" ++ tool_name ++ "' not found.")] }
      { success := false, output := history_entry
        entry := { action := "tool:" ++ tool_name, args := tool_args
                   explanation := explanation, result := history_entry } }
  | none =>
    let vet := is_action_allowed env.cwd env.policy (.shell commands)
    if !vet.1 then
      let history_entry : ResultDict :=
        { success := false
          entries := [("output", "Action denied by security policy: " ++ vet.2)] }
      { success := false, output := history_entry
        entry := { action := "denied_shell", commands := commands
                   explanation := explanation, result := history_entry } }
    else
      let results := execute_commands env.runShell commands
      let success := results.all (fun r => r.success)
      let output := match results with
        | [r] => r.toDict
        | _ => { success := success
                 entries := [("stdout", "Multiple commands executed"), ("stderr", "")] }
      { success := success, output := output
        entry := { action := "shell", commands := commands
                   explanation := explanation, result := output }
        executed := results }

/-- One recorded call to gemini_client.generate_correction. -/
structure CorrectionCall where
  failed_action : String
  stdout : String
  stderr : String
  override_instruction : Option String
deriving Repr, DecidableEq

/-- The mutable state of the while loop in Agent.execute_step, plus traces of
the externally observable calls (corrections requested, override
re-generations, shell results produced, tools invoked). -/
structure LoopState where
  retries : Nat
  success : Bool
  cmd_response : Option CmdResponse
  user_input : String
  history : List HistoryEntry
  inputs : List String
  corrections : List CorrectionCall := []
  regenerations : List String := []
  executed : List CmdResult := []
  toolCalls : List String := []
deriving Repr, DecidableEq

/-- Outcome of one pass through the loop body: continue with the while test
(`next`, covering Python continue and normal fall-through), break out of the
loop (`exitLoop`), or return from execute_step (`cancel`, the user quitting). -/
inductive IterOut where
  | next (s : LoopState)
  | exitLoop (s : LoopState)
  | cancel (s : LoopState)
deriving Repr, DecidableEq

/-- The state carried by an IterOut. -/
def IterOut.state : IterOut → LoopState
  | .next s => s
  | .exitLoop s => s
  | .cancel s => s

/-- Whether an iteration outcome continues the loop. -/
def IterOut.isNext : IterOut → Bool
  | .next _ => true
  | _ => false

/-- The failed-action description built at agent.py line 138. -/
def failedActionStr (response : CmdResponse) : String :=
  match response.tool with
  | some t => "Tool: " ++ t ++ "(" ++ pyReprArgs response.tool_args ++ ")"
  | none => String.intercalate " && " response.commands

/-- The stdout argument of the correction request: `output.get("stdout",
str(output))` (agent.py line 146). -/
def correctionStdout (pr : PerformResult) : String :=
  ((pr.output.entries).lookup "stdout").getD pr.output.pyRepr

/-- The stderr argument of the correction request: `output.get("stderr", "")`
(agent.py line 147). -/
def correctionStderr (pr : PerformResult) : String :=
  ((pr.output.entries).lookup "stderr").getD ""

/-- The override passed to the correction request: the last user input unless
it was one of the control answers (agent.py line 142). -/
def overrideOf (user_input : String) : Option String :=
  if user_input ≠ "y" ∧ user_input ≠ "s" ∧ user_input ≠ "q" then some user_input
  else none

/-- The execute/evaluate/correct tail of the loop body (agent.py lines
130-150): perform the action, append its history entry, set success or
increment the retry counter and, while the budget remains, request a
correction. -/
def performPhase (env : AgentEnv) (s : LoopState) (response : CmdResponse) : IterOut :=
  let pr := perform_action env response
  let s1 := { s with history := s.history ++ [pr.entry]
                     executed := s.executed ++ pr.executed
                     toolCalls := s.toolCalls ++ pr.toolInvoked.toList }
  if pr.success then .next { s1 with success := true }
  else
    let retries := s1.retries + 1
    let failed_action_str := failedActionStr response
    if retries < env.max_retries then
      let call : CorrectionCall :=
        { failed_action := failed_action_str, stdout := correctionStdout pr
          stderr := correctionStderr pr
          override_instruction := overrideOf s1.user_input }
      .next { s1 with
        retries := retries
        cmd_response :=
          env.genCorrection s1.history failed_action_str (correctionStdout pr)
            (correctionStderr pr) (overrideOf s1.user_input)
        corrections := s1.corrections ++ [call] }
    else .next { s1 with retries := retries }

/-- One pass through the body of the while loop of Agent.execute_step
(agent.py lines 71-150): bail out on a missing or error response, record a
no-action success, otherwise (interactively) consume one user input — quit,
skip, or free-text override re-generating the action — and finally perform the
action.  `step` is the instruction labelling the step's history entries. -/
def step_iter (env : AgentEnv) (step : String) (s : LoopState) : IterOut :=
  match s.cmd_response with
  | none => .exitLoop s
  | some response =>
    if response.error.isSome then .exitLoop s
    else
      let explanation := response.explanation.getD "No explanation provided."
      if response.commands.isEmpty && toolFalsy response.tool then
        let entry : HistoryEntry :=
          { step := step, action := "none", explanation := explanation
            result := { success := true, entries := [("output", "No action taken.")] } }
        .next { s with history := s.history ++ [entry], success := true }
      else if !env.auto_approve then
        let raw := s.inputs.headD ""
        let rest := s.inputs.tail
        let user_input := pyLower (if raw = "" then "y" else raw)
        let s1 := { s with user_input := user_input, inputs := rest }
        if user_input = "q" || user_input = "quit" then .cancel s1
        else if user_input = "s" || user_input = "skip" then
          let entry : HistoryEntry :=
            { step := step, action := "skip", explanation := "User skipped action."
              result := { success := true
                          entries := [("output", "User skipped action.")] } }
          .exitLoop { s1 with history := s1.history ++ [entry] }
        else if user_input ≠ "y" then
          .next { s1 with cmd_response := env.genNext s1.history user_input
                          regenerations := s1.regenerations ++ [user_input] }
        else performPhase env s1 response
      else performPhase env s response

/-- The while loop of Agent.execute_step, fuel-indexed.  The guard is the
Python `while retries < self.max_retries and not success`; the Bool of the
result records whether the loop was left by the user quitting (Python
return).  The fuel execute_step supplies strictly dominates the loop's
variant, so the fuel-exhaustion branch is unreachable there. -/
def step_loop (env : AgentEnv) (step : String) : Nat → LoopState → LoopState × Bool
  | 0, s => (s, false)
  | fuel + 1, s =>
    if s.retries < env.max_retries && !s.success then
      match step_iter env step s with
      | .next s2 => step_loop env step fuel s2
      | .exitLoop s2 => (s2, false)
      | .cancel s2 => (s2, true)
    else (s, false)

/-- Agent.execute_step (agent.py lines 52-153): one generation call, then the
retry loop.  `history` is Agent.history at entry (the caller has already
appended the user-instruction entry), `inputs` the user's pending interactive
answers (an exhausted stream means the user keeps accepting the prompt
default "y"). -/
def execute_step (env : AgentEnv) (history : List HistoryEntry)
    (inputs : List String) (instruction : String) : LoopState × Bool :=
  let init : LoopState :=
    { retries := 0, success := false
      cmd_response := env.genNext history instruction
      user_input := "y", history := history, inputs := inputs }
  step_loop env instruction (env.max_retries + inputs.length + 2) init

/-- The payload handed to json.loads by GeminiClient._parse_json_response
(api.py lines 390-393): the text between a fenced ```json marker and the next
fence when present, the whole response otherwise. -/
def extract_payload (response_text : String) : String :=
  if pyContains response_text "```json" then
    ((pySplitOn response_text "```json").getD 1 "" |> fun t =>
      (pySplitOn t "```").headD "")
  else response_text

/-- GeminiClient._parse_json_response (api.py lines 387-399), with json.loads
abstracted as `loads` (`none` models a JSONDecodeError; the IndexError branch
is unreachable because the subscript is guarded by the membership test). -/
def parse_json_response (loads : String → Option CmdResponse)
    (response_text : String) : CmdResponse :=
  match loads (extract_payload response_text) with
  | some v => v
  | none => { error := some "Invalid or unexpected response format from the model." }

/-- The error response the parser returns on a json.loads failure. -/
def invalidResponse : CmdResponse :=
  { error := some "Invalid or unexpected response format from the model." }

/-- The history-entry result dict recorded for an unknown tool name
(agent.py line 202). -/
def toolNotFoundDict (tool_name : String) : ResultDict :=
  { success := false
    entries := [("output", "Tool '" ++ tool_name ++ "' not found.")] }

/-- A policy for the C4 scenario. -/
def polC4 : SecurityPolicy := { file_access_blacklist := ["/etc"], allow_tool_usage := some true }

/-- A concrete scenario value used by the claim theorems below. -/
def polC5 : SecurityPolicy := { command_blacklist := ["rm"], allow_shell_commands := some true }

/-- A concrete scenario value used by the claim theorems below. -/
def envC5 : AgentEnv :=
  { genNext := fun _ _ => none
    genCorrection := fun _ _ _ _ _ => none
    hasTool := fun _ => false
    runTool := fun _ _ => { success := false }
    runShell := fun _ => (true, "", "")
    policy := polC5
    cwd := "/"
    auto_approve := true }

/-- A concrete scenario value used by the claim theorems below. -/
def failRunC3 : String → Bool × String × String := fun _ => (false, "", "")

/-- A concrete scenario value used by the claim theorems below. -/
def runC3w : String → Bool × String × String := fun c => (c == "true", "", "")

/-- A concrete scenario value used by the claim theorems below. -/
def envC7 : AgentEnv :=
  { genNext := fun _ _ => none
    genCorrection := fun _ _ _ _ _ => none
    hasTool := fun _ => false
    runTool := fun _ _ => { success := false }
    runShell := fun _ => (true, "", "")
    policy := get_default_policy
    cwd := "/"
    auto_approve := true }

/-- A concrete scenario value used by the claim theorems below. -/
def sC7 : LoopState :=
  { retries := 0, success := false, cmd_response := some invalidResponse
    user_input := "y", history := [], inputs := [] }

/-- A concrete scenario value used by the claim theorems below. -/
def respC1 : CmdResponse := { commands := ["rm -rf /tmp/x"], explanation := some "cleanup" }

/-- A concrete scenario value used by the claim theorems below. -/
def envC1 : AgentEnv :=
  { genNext := fun _ _ => some respC1
    genCorrection := fun _ _ _ _ _ => some respC1
    hasTool := fun _ => false
    runTool := fun _ _ => { success := false }
    runShell := fun _ => (true, "", "")
    policy := get_default_policy
    cwd := "/"
    auto_approve := true }

/-- A concrete scenario value used by the claim theorems below. -/
def sC1 : LoopState :=
  { retries := 0, success := false, cmd_response := some respC1
    user_input := "y", history := [], inputs := [] }

/-- A concrete scenario value used by the claim theorems below. -/
def respC6 : CmdResponse := { tool := some "frobnicate", tool_args := [("x", "1")] }

/-- A concrete scenario value used by the claim theorems below. -/
def envC6 : AgentEnv :=
  { genNext := fun _ _ => some respC6
    genCorrection := fun _ _ _ _ _ => some respC6
    hasTool := fun t => t == "read_file" || t == "write_file" || t == "list_directory"
    runTool := fun _ _ => { success := true }
    runShell := fun _ => (true, "", "")
    policy := get_default_policy
    cwd := "/"
    auto_approve := true }

/-- A concrete scenario value used by the claim theorems below. -/
def sC6 : LoopState :=
  { retries := 0, success := false, cmd_response := some respC6
    user_input := "y", history := [], inputs := [] }

/-- A concrete scenario value used by the claim theorems below. -/
def respC8 : CmdResponse := { commands := ["cmd1", "cmd2"], explanation := some "two" }

/-- A concrete scenario value used by the claim theorems below. -/
def envC8 : AgentEnv :=
  { genNext := fun _ _ => some respC8
    genCorrection := fun _ _ _ _ _ => some { error := some "stop" }
    hasTool := fun _ => false
    runTool := fun _ _ => { success := false }
    runShell := fun c => if c = "cmd1" then (true, "out1", "") else (false, "out2", "boom")
    policy := { allow_shell_commands := some true }
    cwd := "/"
    auto_approve := true }

/-- A concrete scenario value used by the claim theorems below. -/
def respC8w : CmdResponse := { commands := ["cmd2"] }

/-- A concrete scenario value used by the claim theorems below. -/
def sC8w : LoopState :=
  { retries := 0, success := false, cmd_response := some respC8w
    user_input := "y", history := [], inputs := [] }

/-- A concrete scenario value used by the claim theorems below. -/
def respC2 : CmdResponse := { tool := some "get_cpu_info", explanation := some "cpu" }

/-- A concrete scenario value used by the claim theorems below. -/
def envC2 : AgentEnv :=
  { genNext := fun _ _ => some respC2
    genCorrection := fun _ _ _ _ _ => some respC2
    hasTool := fun t => t == "get_cpu_info"
    runTool := fun _ _ => { success := false, entries := [("error", "boom")] }
    runShell := fun _ => (true, "", "")
    policy := get_default_policy
    cwd := "/"
    auto_approve := true }

/-- A concrete scenario value used by the claim theorems below. -/
def respC9w : CmdResponse := { commands := ["ls"], explanation := some "list" }

/-- A concrete scenario value used by the claim theorems below. -/
def envC9w : AgentEnv :=
  { genNext := fun _ i => some { commands := ["ls", i], explanation := some "list" }
    genCorrection := fun _ _ _ _ _ => none
    hasTool := fun _ => false
    runTool := fun _ _ => { success := false }
    runShell := fun _ => (true, "", "")
    policy := get_default_policy
    cwd := "/"
    auto_approve := false }

/-- A concrete scenario value used by the claim theorems below. -/
def sC9w : LoopState :=
  { retries := 1, success := false, cmd_response := some respC9w
    user_input := "y", history := [], inputs := ["use tar instead"] }

/-- helper: firstBlacklistedCommand in terms of find?. -/
theorem firstBlacklistedCommand_eq (bl : List String) (cmds : List String) :
    firstBlacklistedCommand bl cmds =
      (cmds.find? (cmdIsBlacklisted bl)).bind (fun c => (pySplit c).head?) := by
  induction cmds with
  | nil => rfl
  | cons c rest ih =>
    rw [firstBlacklistedCommand]
    cases hsp : pySplit c with
    | nil =>
      have hcb : cmdIsBlacklisted bl c = false := by
        unfold cmdIsBlacklisted; rw [hsp]
      rw [List.find?_cons_of_neg _ (by simp [hcb]), ih]
    | cons tok toks =>
      by_cases hb : bl.any (fun b => pyLower tok == pyLower b)
      · have hcb : cmdIsBlacklisted bl c = true := by
          unfold cmdIsBlacklisted; rw [hsp]; exact hb
        rw [List.find?_cons_of_pos _ hcb]
        simp [hb, hsp]
      · have hcb : cmdIsBlacklisted bl c = false := by
          unfold cmdIsBlacklisted; rw [hsp]
          exact Bool.of_not_eq_true hb ▸ rfl
        rw [List.find?_cons_of_neg _ (by simp [hcb]), ih]
        simp [hb, hsp]

/-- helper: in auto-approve mode the loop body goes straight to the
perform phase once the guards pass. -/
theorem step_iter_auto (env : AgentEnv) (step : String) (s : LoopState)
    (response : CmdResponse)
    (hresp : s.cmd_response = some response)
    (herr : response.error = none)
    (hact : (response.commands.isEmpty && toolFalsy response.tool) = false)
    (hauto : env.auto_approve = true) :
    step_iter env step s = performPhase env s response := by
  rw [step_iter, hresp]
  simp [herr, hact, hauto]

/-- helper: the perform phase on a failed action with retry budget left. -/
theorem performPhase_fail_budget (env : AgentEnv) (s : LoopState)
    (response : CmdResponse)
    (hfail : (perform_action env response).success = false)
    (hbudget : s.retries + 1 < env.max_retries) :
    performPhase env s response = .next { s with
      history := s.history ++ [(perform_action env response).entry]
      executed := s.executed ++ (perform_action env response).executed
      toolCalls := s.toolCalls ++ (perform_action env response).toolInvoked.toList
      retries := s.retries + 1
      cmd_response := env.genCorrection
        (s.history ++ [(perform_action env response).entry])
        (failedActionStr response)
        (correctionStdout (perform_action env response))
        (correctionStderr (perform_action env response))
        (overrideOf s.user_input)
      corrections := s.corrections ++
        [{ failed_action := failedActionStr response
           stdout := correctionStdout (perform_action env response)
           stderr := correctionStderr (perform_action env response)
           override_instruction := overrideOf s.user_input }] } := by
  rw [performPhase]
  simp [hfail, hbudget]

/-- helper: the perform phase on a failed action with the budget exhausted. -/
theorem performPhase_fail_exhausted (env : AgentEnv) (s : LoopState)
    (response : CmdResponse)
    (hfail : (perform_action env response).success = false)
    (hbudget : ¬ s.retries + 1 < env.max_retries) :
    performPhase env s response = .next { s with
      history := s.history ++ [(perform_action env response).entry]
      executed := s.executed ++ (perform_action env response).executed
      toolCalls := s.toolCalls ++ (perform_action env response).toolInvoked.toList
      retries := s.retries + 1 } := by
  rw [performPhase]
  simp [hfail, hbudget]

/-- helper: the shape of the state after a failing perform phase. -/
theorem performPhase_fail_shape (env : AgentEnv) (s : LoopState)
    (response : CmdResponse)
    (hfail : (perform_action env response).success = false) :
    ∃ s2, performPhase env s response = .next s2 ∧
      s2.success = s.success ∧
      s2.retries = s.retries + 1 ∧
      (s.retries + 1 < env.max_retries →
        s2.cmd_response = env.genCorrection
          (s.history ++ [(perform_action env response).entry])
          (failedActionStr response)
          (correctionStdout (perform_action env response))
          (correctionStderr (perform_action env response))
          (overrideOf s.user_input) ∧
        s2.corrections.length = s.corrections.length + 1) ∧
      (¬ s.retries + 1 < env.max_retries →
        s2.cmd_response = s.cmd_response ∧
        s2.corrections.length = s.corrections.length) := by
  by_cases hb : s.retries + 1 < env.max_retries
  · exact ⟨_, performPhase_fail_budget env s response hfail hb, rfl, rfl,
      fun _ => ⟨rfl, by simp⟩, fun hc => absurd hb hc⟩
  · exact ⟨_, performPhase_fail_exhausted env s response hfail hb, rfl, rfl,
      fun hc => absurd hc hb, fun _ => ⟨rfl, rfl⟩⟩

/-- helper: a vetoed action is turned by perform_action into a failed result
recording the denial reason, with nothing executed. -/
theorem perform_action_denied (env : AgentEnv) (response : CmdResponse)
    (hdeny : (is_action_allowed env.cwd env.policy (responseDetails response)).1 = false) :
    perform_action env response =
      { success := false
        output := { success := false, entries := [("output",
          "Action denied by security policy: " ++
            (is_action_allowed env.cwd env.policy (responseDetails response)).2)] }
        entry := { action := match response.tool with
                     | some t => "denied_tool:" ++ t
                     | none => "denied_shell"
                   commands := match response.tool with
                     | some _ => []
                     | none => response.commands
                   args := match response.tool with
                     | some _ => response.tool_args
                     | none => []
                   explanation := response.explanation.getD ""
                   result := { success := false, entries := [("output",
                     "Action denied by security policy: " ++
                       (is_action_allowed env.cwd env.policy
                         (responseDetails response)).2)] } } } := by
  cases htool : response.tool with
  | none =>
    rw [responseDetails, htool] at hdeny
    simp only at hdeny
    rw [perform_action]
    simp [htool, hdeny, responseDetails]
  | some t =>
    rw [responseDetails, htool] at hdeny
    simp only at hdeny
    rw [perform_action]
    simp [htool, hdeny, responseDetails]

/-- helper: an unknown tool name is turned by perform_action into an ordinary
failed result recording "tool not found". -/
theorem perform_action_tool_missing (env : AgentEnv) (response : CmdResponse)
    (tool_name : String)
    (htool : response.tool = some tool_name)
    (hallow : (is_action_allowed env.cwd env.policy
      (.tool tool_name response.tool_args)).1 = true)
    (hmiss : env.hasTool tool_name = false) :
    perform_action env response =
      { success := false
        output := toolNotFoundDict tool_name
        entry := { action := "tool:" ++ tool_name, args := response.tool_args
                   explanation := response.explanation.getD ""
                   result := toolNotFoundDict tool_name } } := by
  rw [perform_action]
  simp [htool, hallow, hmiss, toolNotFoundDict]

/-- helper: a single failing shell command gives a failed perform_action whose
output dict carries the captured stdout/stderr of that command. -/
theorem perform_action_shell_single_fail (env : AgentEnv) (response : CmdResponse)
    (c : String)
    (htool : response.tool = none)
    (hcmds : response.commands = [c])
    (hallow : (is_action_allowed env.cwd env.policy (.shell [c])).1 = true)
    (hfail : (env.runShell c).1 = false) :
    perform_action env response =
      { success := false
        output := CmdResult.toDict ⟨c, false, (env.runShell c).2.1, (env.runShell c).2.2⟩
        entry := { action := "shell", commands := [c]
                   explanation := response.explanation.getD ""
                   result := CmdResult.toDict
                     ⟨c, false, (env.runShell c).2.1, (env.runShell c).2.2⟩ }
        executed := [⟨c, false, (env.runShell c).2.1, (env.runShell c).2.2⟩] } := by
  have hexec : execute_commands env.runShell [c] =
      [⟨c, false, (env.runShell c).2.1, (env.runShell c).2.2⟩] := by
    rw [execute_commands]
    simp [hfail, execute_commands]
  rw [perform_action]
  simp only [htool, hcmds, hallow, hexec]
  simp [hexec, CmdResult.toDict]

/-- helper: unfolding one loop pass that continues. -/
theorem step_loop_succ_next (env : AgentEnv) (step : String) (fuel : Nat)
    (s s2 : LoopState)
    (hguard : (decide (s.retries < env.max_retries) && !s.success) = true)
    (hiter : step_iter env step s = .next s2) :
    step_loop env step (fuel + 1) s = step_loop env step fuel s2 := by
  rw [step_loop, if_pos hguard, hiter]

/-- helper: the retry loop under a client whose every proposal fails: it
terminates with the retry counter at the ceiling, exactly
max_retries - 1 - start corrections issued, and no success. -/
theorem step_loop_always_fail (env : AgentEnv) (r : CmdResponse) (step : String)
    (hauto : env.auto_approve = true)
    (hcorr : ∀ h f o e ov, env.genCorrection h f o e ov = some r)
    (herr : r.error = none)
    (hact : (r.commands.isEmpty && toolFalsy r.tool) = false)
    (hfail : (perform_action env r).success = false) :
    ∀ fuel s, s.cmd_response = some r → s.success = false →
      env.max_retries ≤ fuel + s.retries →
      (step_loop env step fuel s).2 = false ∧
      (step_loop env step fuel s).1.success = false ∧
      (step_loop env step fuel s).1.retries = max s.retries env.max_retries ∧
      (step_loop env step fuel s).1.corrections.length =
        s.corrections.length + (env.max_retries - 1 - s.retries) := by
  intro fuel
  induction fuel with
  | zero =>
    intro s hresp hsucc hge
    rw [step_loop]
    refine ⟨rfl, hsucc, ?_, ?_⟩
    · show s.retries = max s.retries env.max_retries
      omega
    · show s.corrections.length =
        s.corrections.length + (env.max_retries - 1 - s.retries)
      omega
  | succ fuel ih =>
    intro s hresp hsucc hge
    by_cases hlt : s.retries < env.max_retries
    · have hiter := step_iter_auto env step s r hresp herr hact hauto
      obtain ⟨s2, hnext, e1, e2, e3, e4⟩ := performPhase_fail_shape env s r hfail
      have hstep := step_loop_succ_next env step fuel s s2
        (by simp [hlt, hsucc]) (by rw [hiter, hnext])
      rw [hstep]
      by_cases hb : s.retries + 1 < env.max_retries
      · obtain ⟨hc1, hc2⟩ := e3 hb
        have hih := ih s2 (by rw [hc1, hcorr]) (by rw [e1, hsucc])
          (by rw [e2]; omega)
        obtain ⟨g1, g2, g3, g4⟩ := hih
        refine ⟨g1, g2, ?_, ?_⟩
        · rw [g3, e2]; omega
        · rw [g4, hc2, e2]; omega
      · obtain ⟨hc1, hc2⟩ := e4 hb
        have hih := ih s2 (by rw [hc1, hresp]) (by rw [e1, hsucc])
          (by rw [e2]; omega)
        obtain ⟨g1, g2, g3, g4⟩ := hih
        refine ⟨g1, g2, ?_, ?_⟩
        · rw [g3, e2]; omega
        · rw [g4, hc2, e2]; omega
    · rw [step_loop, if_neg (by simp [hlt])]
      refine ⟨rfl, hsucc, ?_, ?_⟩
      · show s.retries = max s.retries env.max_retries
        omega
      · show s.corrections.length =
          s.corrections.length + (env.max_retries - 1 - s.retries)
        omega

end Owl

open Owl

/-- C1 counterexample: with the default policy and a client that always proposes
the blacklisted shell action ["rm -rf /tmp/x"], every history entry of the run
is a policy denial, yet the orchestrator issues 2 correction requests — so a
correction request IS issued for a policy-denied action, contradicting the
claim. -/
theorem C1_counterexample :
    ((execute_step envC1 [] [] "delete tmp").1.history.map (fun e => e.action)) =
      ["denied_shell", "denied_shell", "denied_shell"] ∧
    (execute_step envC1 [] [] "delete tmp").1.corrections.length = 2 ∧
    (2 : Nat) ≠ 0 := by
  refine ⟨?_, ?_, by decide⟩ <;> rfl

/-- C1 (amended): when the Policy Vetting Engine denies the proposed action, the
Orchestrator records a denial HistoryEntry carrying the engine's reason,
nothing is executed or invoked, and the step's attempt fails — but the denial
is treated as an ordinary failed execution: the retry counter increments and,
while the retry budget remains, a correction request is issued; the step ends
in Failed only after the budget is exhausted, not immediately. -/
theorem C1_denial_recorded_and_retried (env : AgentEnv) (step : String)
    (s : LoopState) (response : CmdResponse)
    (hresp : s.cmd_response = some response)
    (herr : response.error = none)
    (hact : (response.commands.isEmpty && toolFalsy response.tool) = false)
    (hauto : env.auto_approve = true)
    (hdeny : (is_action_allowed env.cwd env.policy (responseDetails response)).1 = false) :
    (perform_action env response).success = false ∧
    (perform_action env response).executed = [] ∧
    (perform_action env response).toolInvoked = none ∧
    (perform_action env response).entry.result =
      { success := false, entries := [("output",
        "Action denied by security policy: " ++
          (is_action_allowed env.cwd env.policy (responseDetails response)).2)] } ∧
    (perform_action env response).entry.action =
      (match response.tool with
        | some t => "denied_tool:" ++ t
        | none => "denied_shell") ∧
    (step_iter env step s).isNext = true ∧
    (step_iter env step s).state.history =
      s.history ++ [(perform_action env response).entry] ∧
    (step_iter env step s).state.retries = s.retries + 1 ∧
    (s.retries + 1 < env.max_retries →
      (step_iter env step s).state.corrections.length = s.corrections.length + 1) := by
  have hpd := perform_action_denied env response hdeny
  have hiter := step_iter_auto env step s response hresp herr hact hauto
  have hfail : (perform_action env response).success = false := by rw [hpd]
  refine ⟨hfail, by rw [hpd], by rw [hpd], by rw [hpd], by rw [hpd], ?_, ?_, ?_, ?_⟩
  · by_cases hb : s.retries + 1 < env.max_retries
    · rw [hiter, performPhase_fail_budget env s response hfail hb]; rfl
    · rw [hiter, performPhase_fail_exhausted env s response hfail hb]; rfl
  · by_cases hb : s.retries + 1 < env.max_retries
    · rw [hiter, performPhase_fail_budget env s response hfail hb]; rfl
    · rw [hiter, performPhase_fail_exhausted env s response hfail hb]; rfl
  · by_cases hb : s.retries + 1 < env.max_retries
    · rw [hiter, performPhase_fail_budget env s response hfail hb]; rfl
    · rw [hiter, performPhase_fail_exhausted env s response hfail hb]; rfl
  · intro hb
    rw [hiter, performPhase_fail_budget env s response hfail hb]
    simp [IterOut.state]

/-- C1 witness: the amended theorem applied to the concrete denied shell action
["rm -rf /tmp/x"] under the default policy. -/
theorem C1_witness :
    (perform_action envC1 respC1).success = false ∧
    (perform_action envC1 respC1).executed = [] ∧
    (perform_action envC1 respC1).toolInvoked = none ∧
    (perform_action envC1 respC1).entry.result =
      { success := false, entries := [("output",
        "Action denied by security policy: " ++
          (is_action_allowed envC1.cwd envC1.policy (responseDetails respC1)).2)] } ∧
    (perform_action envC1 respC1).entry.action =
      (match respC1.tool with
        | some t => "denied_tool:" ++ t
        | none => "denied_shell") ∧
    (step_iter envC1 "delete tmp" sC1).isNext = true ∧
    (step_iter envC1 "delete tmp" sC1).state.history =
      sC1.history ++ [(perform_action envC1 respC1).entry] ∧
    (step_iter envC1 "delete tmp" sC1).state.retries = sC1.retries + 1 ∧
    (sC1.retries + 1 < envC1.max_retries →
      (step_iter envC1 "delete tmp" sC1).state.corrections.length =
        sC1.corrections.length + 1) :=
  C1_denial_recorded_and_retried envC1 "delete tmp" sC1 respC1 rfl rfl (by decide) rfl
    (by decide)

/-- C2 counterexample: with max_retries = 3 and a registered tool that always
fails, the step terminates in Failed with the retry counter at 3 but only 2
correction calls — not the maxRetries = 3 correction calls the claim states. -/
theorem C2_counterexample :
    envC2.max_retries = 3 ∧
    (execute_step envC2 [] [] "check cpu").1.success = false ∧
    (execute_step envC2 [] [] "check cpu").1.retries = 3 ∧
    (execute_step envC2 [] [] "check cpu").1.corrections.length = 2 ∧
    (2 : Nat) ≠ 3 := by
  refine ⟨rfl, rfl, rfl, rfl, by decide⟩

/-- C2 (amended): when every generated action fails (the Generation Client
always returns the same failing proposal), the Orchestrator performs the
action max_retries times, calls the correction path exactly max_retries - 1
times (2 with the default of 3), and then terminates the step unsuccessfully —
it never loops indefinitely and the user-quit path is not taken. -/
theorem C2_retry_bound (env : AgentEnv) (r : CmdResponse)
    (history : List HistoryEntry) (instruction : String)
    (hauto : env.auto_approve = true)
    (hgen : ∀ h i, env.genNext h i = some r)
    (hcorr : ∀ h f o e ov, env.genCorrection h f o e ov = some r)
    (herr : r.error = none)
    (hact : (r.commands.isEmpty && toolFalsy r.tool) = false)
    (hfail : (perform_action env r).success = false) :
    (execute_step env history [] instruction).2 = false ∧
    (execute_step env history [] instruction).1.success = false ∧
    (execute_step env history [] instruction).1.retries = env.max_retries ∧
    (execute_step env history [] instruction).1.corrections.length =
      env.max_retries - 1 := by
  rw [execute_step]
  have h := step_loop_always_fail env r instruction hauto hcorr herr hact hfail
    (env.max_retries + ([] : List String).length + 2)
    { retries := 0, success := false
      cmd_response := env.genNext history instruction
      user_input := "y", history := history, inputs := [] }
    (by simpa using hgen history instruction) rfl (by simp)
  obtain ⟨g1, g2, g3, g4⟩ := h
  refine ⟨g1, g2, ?_, ?_⟩
  · rw [g3]
    show max 0 env.max_retries = env.max_retries
    omega
  · rw [g4]
    show (0 : Nat) + (env.max_retries - 1 - 0) = env.max_retries - 1
    omega

/-- C2 witness: the amended retry bound applied to the concrete always-failing
tool scenario. -/
theorem C2_witness :
    (execute_step envC2 [] [] "check cpu").2 = false ∧
    (execute_step envC2 [] [] "check cpu").1.success = false ∧
    (execute_step envC2 [] [] "check cpu").1.retries = envC2.max_retries ∧
    (execute_step envC2 [] [] "check cpu").1.corrections.length =
      envC2.max_retries - 1 :=
  C2_retry_bound envC2 respC2 [] "check cpu" rfl (fun _ _ => rfl) (fun _ _ _ _ _ => rfl)
    rfl (by decide) (by decide)

/-- C3 counterexample: for the single command list ["false"] whose command
fails, the executor returns 1 result = len(commands) results even though not
all commands succeeded, refuting the claimed equivalence (length equality iff
all succeeded). -/
theorem C3_counterexample :
    ¬ ((execute_commands failRunC3 ["false"]).length = (["false"] : List String).length ↔
        ∀ r ∈ execute_commands failRunC3 ["false"], r.success = true) := by
  decide

/-- C3 (amended): the Sequential Command Executor returns one result per
command attempted in list order (the results are exactly the first k
commands), every result before the last is a success (it stops immediately
after the first failing command, so later commands are never attempted), a
truncated run ends in a failed result, the returned sequence has length at
most len(commands), and the length equals len(commands) iff every command
except possibly the last succeeded. -/
theorem C3_executor_stop_on_failure (run : String → Bool × String × String)
    (cmds : List String) :
    ((execute_commands run cmds).map (fun r => r.command) =
      cmds.take (execute_commands run cmds).length) ∧
    (∀ r ∈ (execute_commands run cmds).dropLast, r.success = true) ∧
    ((execute_commands run cmds).length < cmds.length →
      ∃ last, (execute_commands run cmds).getLast? = some last ∧ last.success = false) ∧
    (execute_commands run cmds).length ≤ cmds.length ∧
    ((execute_commands run cmds).length = cmds.length ↔
      ∀ c ∈ cmds.dropLast, (run c).1 = true) := by
  induction cmds with
  | nil => simp [execute_commands]
  | cons c rest ih =>
    obtain ⟨ih1, ih2, ih3, ih4, ih5⟩ := ih
    by_cases h : (run c).1
    · have hexec : execute_commands run (c :: rest) =
          ⟨c, true, (run c).2.1, (run c).2.2⟩ :: execute_commands run rest := by
        rw [execute_commands]; simp [h]
      rw [hexec]
      refine ⟨?_, ?_, ?_, ?_, ?_⟩
      · simpa using ih1
      · intro r hr
        by_cases hnil : execute_commands run rest = []
        · simp [hnil] at hr
        · rw [List.dropLast_cons_of_ne_nil hnil] at hr
          rcases List.mem_cons.mp hr with hr | hr
          · subst hr; rfl
          · exact ih2 r hr
      · intro hlen
        simp only [List.length_cons, Nat.add_lt_add_iff_right] at hlen
        obtain ⟨last, hl, hs⟩ := ih3 hlen
        rw [List.getLast?_eq_some_iff] at hl
        obtain ⟨ys, hys⟩ := hl
        refine ⟨last, ?_, hs⟩
        rw [List.getLast?_eq_some_iff]
        exact ⟨⟨c, true, (run c).2.1, (run c).2.2⟩ :: ys, by rw [hys, List.cons_append]⟩
      · simpa using ih4
      · simp only [List.length_cons, Nat.add_right_cancel_iff]
        cases rest with
        | nil => simp [execute_commands]
        | cons d rest2 =>
          rw [List.dropLast_cons_of_ne_nil (by simp)]
          simp only [List.mem_cons, forall_eq_or_imp]
          rw [ih5]
          simp [h]
    · have hfalse : (run c).1 = false := by simpa using h
      have hexec : execute_commands run (c :: rest) =
          [⟨c, false, (run c).2.1, (run c).2.2⟩] := by
        rw [execute_commands]; simp [hfalse]
      rw [hexec]
      refine ⟨by simp, by simp, ?_, by simp, ?_⟩
      · intro _
        exact ⟨⟨c, false, (run c).2.1, (run c).2.2⟩, by simp, rfl⟩
      · cases rest with
        | nil => simp
        | cons d rest2 =>
          rw [List.dropLast_cons_of_ne_nil (by simp)]
          simp only [List.length_singleton, List.length_cons, List.length_nil,
            List.mem_cons, forall_eq_or_imp]
          constructor
          · intro habs
            exact absurd habs (by omega)
          · intro hall
            have hc := hall.1
            rw [hfalse] at hc
            exact absurd hc (by simp)

/-- C3 witness: the executor contract applied to the spec's
["true", "false", "true"] scenario. -/
theorem C3_witness :
    ((execute_commands runC3w ["true", "false", "true"]).map (fun r => r.command) =
      (["true", "false", "true"] : List String).take
        (execute_commands runC3w ["true", "false", "true"]).length) ∧
    (∀ r ∈ (execute_commands runC3w ["true", "false", "true"]).dropLast, r.success = true) ∧
    ((execute_commands runC3w ["true", "false", "true"]).length <
        (["true", "false", "true"] : List String).length →
      ∃ last, (execute_commands runC3w ["true", "false", "true"]).getLast? = some last ∧
        last.success = false) ∧
    (execute_commands runC3w ["true", "false", "true"]).length ≤
      (["true", "false", "true"] : List String).length ∧
    ((execute_commands runC3w ["true", "false", "true"]).length =
        (["true", "false", "true"] : List String).length ↔
      ∀ c ∈ (["true", "false", "true"] : List String).dropLast, (runC3w c).1 = true) :=
  C3_executor_stop_on_failure runC3w ["true", "false", "true"]

/-- C4 counterexample: with file_access_blacklist = ["/etc"], the request path
"/etcbackup/file" IS denied, because the check is a plain string-prefix match
with no path-separator boundary — contradicting the claim that it is not
denied. -/
theorem C4_counterexample :
    polC4.file_access_blacklist = ["/etc"] ∧
    (is_action_allowed "/" polC4 (.tool "read_file" [("file_path", "/etcbackup/file")])).1
      = false := by
  exact ⟨rfl, by decide⟩

/-- C4 (amended): for every policy allowing tools and every path-bearing tool
(read_file/write_file/monitor_file), vetting resolves the file_path argument
to an absolute path and denies exactly when some blacklist entry's absolute
path is a plain string prefix of it; with file_access_blacklist = ["/etc"]
both "/etc/shadow" and "/etcbackup/file" are denied (the match does NOT
respect the path-separator boundary). -/
theorem C4_path_blacklist_plain_prefix (cwd : String) (p : SecurityPolicy)
    (t : String) (args : List (String × String))
    (hallow : p.allow_tool_usage.getD false = true)
    (ht : t ∈ (["read_file", "write_file", "monitor_file"] : List String)) :
    ((is_action_allowed cwd p (.tool t args)).1 = false ↔
      ∃ b ∈ p.file_access_blacklist,
        pyStartswith (abspath cwd ((args.lookup "file_path").getD ""))
          (abspath cwd b) = true) ∧
    (is_action_allowed "/" polC4 (.tool "read_file" [("file_path", "/etc/shadow")])).1
      = false ∧
    (is_action_allowed "/" polC4 (.tool "read_file" [("file_path", "/etcbackup/file")])).1
      = false := by
  refine ⟨?_, by decide, by decide⟩
  rw [is_action_allowed]
  simp only [hallow]
  rw [if_neg (by simp), if_pos ht]
  cases hf : p.file_access_blacklist.find? (fun b =>
      pyStartswith (abspath cwd ((args.lookup "file_path").getD "")) (abspath cwd b)) with
  | none =>
    rw [List.find?_eq_none] at hf
    simp only [Prod.fst]
    constructor
    · intro h; exact absurd h (by simp)
    · rintro ⟨b, hb, hpb⟩
      exact absurd hpb (by simpa using hf b hb)
  | some b =>
    constructor
    · intro _
      have h1 := List.mem_of_find?_eq_some hf
      have h2 := List.find?_some hf
      exact ⟨b, h1, by simpa using h2⟩
    · intro _; rfl

/-- C4 witness: the amended prefix characterization applied to a concrete
policy and path. -/
theorem C4_witness :
    ((is_action_allowed "/" polC4 (.tool "read_file" [("file_path", "/home/u/x")])).1 = false ↔
      ∃ b ∈ polC4.file_access_blacklist,
        pyStartswith (abspath "/" (([("file_path", "/home/u/x")].lookup "file_path").getD ""))
          (abspath "/" b) = true) ∧
    (is_action_allowed "/" polC4 (.tool "read_file" [("file_path", "/etc/shadow")])).1
      = false ∧
    (is_action_allowed "/" polC4 (.tool "read_file" [("file_path", "/etcbackup/file")])).1
      = false :=
  C4_path_blacklist_plain_prefix "/" polC4 "read_file" [("file_path", "/home/u/x")]
    (by decide) (by decide)

/-- C5: for a shell action under a policy with allow_shell_commands true, if
some command's first whitespace token matches the command_blacklist
case-insensitively, the entire action is denied with a reason naming the first
blacklisted command found, perform_action records the denial entry, reports
failure, and executes no command at all. -/
theorem C5_blacklisted_command_denies_action (cwd : String) (p : SecurityPolicy)
    (cmds : List String) (cmd_str tok : String) (toks : List String)
    (env : AgentEnv) (response : CmdResponse)
    (hallow : p.allow_shell_commands.getD false = true)
    (hfirst : cmds.find? (cmdIsBlacklisted p.command_blacklist) = some cmd_str)
    (htok : pySplit cmd_str = tok :: toks)
    (henv : env.policy = p)
    (hresp : response.tool = none)
    (hcmds : response.commands = cmds) :
    is_action_allowed cwd p (.shell cmds) =
      (false, "Command '" ++ tok ++ "' is blacklisted by the security policy.") ∧
    (perform_action env response).success = false ∧
    (perform_action env response).executed = [] ∧
    (perform_action env response).entry.action = "denied_shell" ∧
    (perform_action env response).entry.result =
      { success := false
        entries := [("output", "Action denied by security policy: " ++
          ("Command '" ++ tok ++ "' is blacklisted by the security policy."))] } := by
  have hveto : is_action_allowed cwd p (.shell cmds) =
      (false, "Command '" ++ tok ++ "' is blacklisted by the security policy.") := by
    rw [is_action_allowed]
    simp only [hallow]
    rw [if_neg (by simp)]
    rw [firstBlacklistedCommand_eq, hfirst]
    simp [htok]
  refine ⟨hveto, ?_, ?_, ?_, ?_⟩ <;>
    · rw [perform_action]
      simp only [hresp, hcmds, henv]
      have hveto2 : is_action_allowed env.cwd p (.shell cmds) =
          (false, "Command '" ++ tok ++ "' is blacklisted by the security policy.") := by
        rw [is_action_allowed]
        simp only [hallow]
        rw [if_neg (by simp)]
        rw [firstBlacklistedCommand_eq, hfirst]
        simp [htok]
      rw [hveto2]
      simp

/-- C5 witness: blacklist ["rm"] and commands ["echo hi", "rm -rf /tmp/x"]
deny the whole action with the reason naming "rm" and nothing executed. -/
theorem C5_witness :
    is_action_allowed "/" polC5 (.shell ["echo hi", "rm -rf /tmp/x"]) =
      (false, "Command '" ++ "rm" ++ "' is blacklisted by the security policy.") ∧
    (perform_action envC5 { commands := ["echo hi", "rm -rf /tmp/x"] }).success = false ∧
    (perform_action envC5 { commands := ["echo hi", "rm -rf /tmp/x"] }).executed = [] ∧
    (perform_action envC5 { commands := ["echo hi", "rm -rf /tmp/x"] }).entry.action
      = "denied_shell" ∧
    (perform_action envC5 { commands := ["echo hi", "rm -rf /tmp/x"] }).entry.result =
      { success := false
        entries := [("output", "Action denied by security policy: " ++
          ("Command '" ++ "rm" ++ "' is blacklisted by the security policy."))] } :=
  C5_blacklisted_command_denies_action "/" polC5 ["echo hi", "rm -rf /tmp/x"]
    "rm -rf /tmp/x" "rm" ["-rf", "/tmp/x"] envC5 { commands := ["echo hi", "rm -rf /tmp/x"] }
    (by decide) (by decide) (by decide) rfl rfl rfl

/-- C6: a proposal naming a tool absent from the tool module produces the
distinct failure result "Tool '<name>' not found.", recorded as a history
entry with the tool action tag; no tool is invoked, the loop continues
normally (no exception escapes), the retry counter increments and the failure
is eligible for correction exactly like any other failed execution. -/
theorem C6_tool_not_found_is_ordinary_failure (env : AgentEnv) (step : String)
    (s : LoopState) (response : CmdResponse) (tool_name : String)
    (hresp : s.cmd_response = some response)
    (herr : response.error = none)
    (htool : response.tool = some tool_name)
    (hact : (response.commands.isEmpty && toolFalsy response.tool) = false)
    (hauto : env.auto_approve = true)
    (hallow : (is_action_allowed env.cwd env.policy
      (.tool tool_name response.tool_args)).1 = true)
    (hmiss : env.hasTool tool_name = false) :
    (perform_action env response).success = false ∧
    (perform_action env response).output = toolNotFoundDict tool_name ∧
    (perform_action env response).toolInvoked = none ∧
    (perform_action env response).entry =
      { action := "tool:" ++ tool_name, args := response.tool_args
        explanation := response.explanation.getD ""
        result := toolNotFoundDict tool_name } ∧
    (step_iter env step s).isNext = true ∧
    (step_iter env step s).state.history =
      s.history ++ [(perform_action env response).entry] ∧
    (step_iter env step s).state.retries = s.retries + 1 ∧
    (s.retries + 1 < env.max_retries →
      (step_iter env step s).state.corrections.length = s.corrections.length + 1) := by
  have hpd := perform_action_tool_missing env response tool_name htool hallow hmiss
  have hiter := step_iter_auto env step s response hresp herr hact hauto
  have hfail : (perform_action env response).success = false := by rw [hpd]
  refine ⟨hfail, by rw [hpd], by rw [hpd], by rw [hpd], ?_, ?_, ?_, ?_⟩
  · by_cases hb : s.retries + 1 < env.max_retries
    · rw [hiter, performPhase_fail_budget env s response hfail hb]; rfl
    · rw [hiter, performPhase_fail_exhausted env s response hfail hb]; rfl
  · by_cases hb : s.retries + 1 < env.max_retries
    · rw [hiter, performPhase_fail_budget env s response hfail hb]; rfl
    · rw [hiter, performPhase_fail_exhausted env s response hfail hb]; rfl
  · by_cases hb : s.retries + 1 < env.max_retries
    · rw [hiter, performPhase_fail_budget env s response hfail hb]; rfl
    · rw [hiter, performPhase_fail_exhausted env s response hfail hb]; rfl
  · intro hb
    rw [hiter, performPhase_fail_budget env s response hfail hb]
    simp [IterOut.state]

/-- C6 witness: the unknown tool "frobnicate" at a concrete state. -/
theorem C6_witness :
    (perform_action envC6 respC6).success = false ∧
    (perform_action envC6 respC6).output = toolNotFoundDict "frobnicate" ∧
    (perform_action envC6 respC6).toolInvoked = none ∧
    (perform_action envC6 respC6).entry =
      { action := "tool:" ++ "frobnicate", args := respC6.tool_args
        explanation := respC6.explanation.getD ""
        result := toolNotFoundDict "frobnicate" } ∧
    (step_iter envC6 "frob" sC6).isNext = true ∧
    (step_iter envC6 "frob" sC6).state.history =
      sC6.history ++ [(perform_action envC6 respC6).entry] ∧
    (step_iter envC6 "frob" sC6).state.retries = sC6.retries + 1 ∧
    (sC6.retries + 1 < envC6.max_retries →
      (step_iter envC6 "frob" sC6).state.corrections.length =
        sC6.corrections.length + 1) :=
  C6_tool_not_found_is_ordinary_failure envC6 "frob" sC6 respC6 "frobnicate"
    rfl rfl rfl (by decide) rfl (by decide) (by decide)

/-- C7 counterexample: on an unparseable response the parser reports
{error: "Invalid or unexpected response format from the model."} with no raw
field — not the {error: "invalid response", raw: <original text>} shape the
claim states. -/
theorem C7_counterexample :
    parse_json_response (fun _ => none) "not json" =
      { error := some "Invalid or unexpected response format from the model." } ∧
    "Invalid or unexpected response format from the model." ≠ "invalid response" := by
  constructor
  · rfl
  · decide

/-- C7 (amended): a Generation Client response that json.loads cannot parse is
reported as the error dict {error: "Invalid or unexpected response format from
the model."} (without the original text), and in the orchestration loop that
error response breaks out of the loop with success unchanged and no history
entry appended — it is never coerced into the NoAction default. -/
theorem C7_parse_error_surfaces (loads : String → Option CmdResponse) (text : String)
    (hfail : loads (extract_payload text) = none)
    (env : AgentEnv) (step : String) (s : LoopState)
    (hresp : s.cmd_response = some (parse_json_response loads text)) :
    parse_json_response loads text = invalidResponse ∧
    step_iter env step s = .exitLoop s ∧
    (step_iter env step s).state.success = s.success ∧
    (step_iter env step s).state.history = s.history := by
  have hp : parse_json_response loads text = invalidResponse := by
    rw [parse_json_response, hfail]
    rfl
  have hi : step_iter env step s = .exitLoop s := by
    rw [step_iter, hresp, hp]
    rfl
  exact ⟨hp, hi, by rw [hi]; rfl, by rw [hi]; rfl⟩

/-- C7 witness: the parse-error path at a concrete unparseable text and
state. -/
theorem C7_witness :
    parse_json_response (fun _ => none) "still not json" = invalidResponse ∧
    step_iter envC7 "step" sC7 = .exitLoop sC7 ∧
    (step_iter envC7 "step" sC7).state.success = sC7.success ∧
    (step_iter envC7 "step" sC7).state.history = sC7.history :=
  C7_parse_error_surfaces (fun _ => none) "still not json" rfl envC7 "step" sC7 rfl

/-- C8 counterexample: for the two-command shell action where "cmd2" fails
with captured stdout "out2" and stderr "boom", the correction request carries
the placeholder stdout "Multiple commands executed" and empty stderr instead
of the captured output of the failed execution, contradicting the claim. -/
theorem C8_counterexample :
    (execute_step envC8 [] [] "do the two steps").1.executed =
      [⟨"cmd1", true, "out1", ""⟩, ⟨"cmd2", false, "out2", "boom"⟩] ∧
    (execute_step envC8 [] [] "do the two steps").1.corrections =
      [{ failed_action := "cmd1 && cmd2", stdout := "Multiple commands executed"
         stderr := "", override_instruction := none }] ∧
    ("Multiple commands executed" : String) ≠ "out2" ∧
    ("" : String) ≠ "boom" := by
  refine ⟨rfl, rfl, by decide, by decide⟩

/-- C8 (amended): for every failed execution entering Correcting with retry
budget left, the retry counter is incremented and the correction request to
the Generation Client carries the failed action's textual description, the
optional user override, and the failed output dict's "stdout" and "stderr"
entries — with str(output) and "" as the fallbacks when those keys are absent.
When the failed action was a single shell command, those entries are exactly
the stdout and stderr actually captured from that failed execution.  A
multi-command shell action's output dict instead holds the placeholder
"Multiple commands executed" with empty stderr, dropping the captured output
(see the counterexample). -/
theorem C8_correction_payload (env : AgentEnv) (step : String) (s : LoopState)
    (response : CmdResponse)
    (hresp : s.cmd_response = some response)
    (herr : response.error = none)
    (hact : (response.commands.isEmpty && toolFalsy response.tool) = false)
    (hauto : env.auto_approve = true)
    (hfail : (perform_action env response).success = false)
    (hbudget : s.retries + 1 < env.max_retries) :
    (step_iter env step s).isNext = true ∧
    (step_iter env step s).state.retries = s.retries + 1 ∧
    (step_iter env step s).state.corrections = s.corrections ++
      [{ failed_action := failedActionStr response
         stdout := (((perform_action env response).output.entries).lookup "stdout").getD
           (perform_action env response).output.pyRepr
         stderr := (((perform_action env response).output.entries).lookup "stderr").getD ""
         override_instruction := overrideOf s.user_input }] ∧
    (step_iter env step s).state.cmd_response =
      env.genCorrection (s.history ++ [(perform_action env response).entry])
        (failedActionStr response)
        ((((perform_action env response).output.entries).lookup "stdout").getD
          (perform_action env response).output.pyRepr)
        ((((perform_action env response).output.entries).lookup "stderr").getD "")
        (overrideOf s.user_input) ∧
    (∀ c, response.tool = none → response.commands = [c] →
      (is_action_allowed env.cwd env.policy (.shell [c])).1 = true →
      (env.runShell c).1 = false →
      failedActionStr response = c ∧
      (((perform_action env response).output.entries).lookup "stdout").getD
        (perform_action env response).output.pyRepr = (env.runShell c).2.1 ∧
      (((perform_action env response).output.entries).lookup "stderr").getD ""
        = (env.runShell c).2.2) := by
  have hiter := step_iter_auto env step s response hresp herr hact hauto
  have hpb := performPhase_fail_budget env s response hfail hbudget
  refine ⟨?_, ?_, ?_, ?_, ?_⟩
  · rw [hiter, hpb]; rfl
  · rw [hiter, hpb]; rfl
  · rw [hiter, hpb]; rfl
  · rw [hiter, hpb]; rfl
  · intro c htool hcmds hallow hrfail
    have hpd := perform_action_shell_single_fail env response c htool hcmds hallow hrfail
    refine ⟨?_, ?_, ?_⟩
    · rw [failedActionStr, htool, hcmds]
      rfl
    · rw [hpd]
      rfl
    · rw [hpd]
      rfl

/-- C8 witness: the correction payload at the concrete failing single shell
command "cmd2", whose captured stdout/stderr are carried to the correction. -/
theorem C8_witness :
    (step_iter envC8 "one step" sC8w).isNext = true ∧
    (step_iter envC8 "one step" sC8w).state.retries = sC8w.retries + 1 ∧
    (step_iter envC8 "one step" sC8w).state.corrections = sC8w.corrections ++
      [{ failed_action := failedActionStr respC8w
         stdout := (((perform_action envC8 respC8w).output.entries).lookup "stdout").getD
           (perform_action envC8 respC8w).output.pyRepr
         stderr := (((perform_action envC8 respC8w).output.entries).lookup "stderr").getD ""
         override_instruction := overrideOf sC8w.user_input }] ∧
    (step_iter envC8 "one step" sC8w).state.cmd_response =
      envC8.genCorrection (sC8w.history ++ [(perform_action envC8 respC8w).entry])
        (failedActionStr respC8w)
        ((((perform_action envC8 respC8w).output.entries).lookup "stdout").getD
          (perform_action envC8 respC8w).output.pyRepr)
        ((((perform_action envC8 respC8w).output.entries).lookup "stderr").getD "")
        (overrideOf sC8w.user_input) ∧
    (∀ c, respC8w.tool = none → respC8w.commands = [c] →
      (is_action_allowed envC8.cwd envC8.policy (.shell [c])).1 = true →
      (envC8.runShell c).1 = false →
      failedActionStr respC8w = c ∧
      (((perform_action envC8 respC8w).output.entries).lookup "stdout").getD
        (perform_action envC8 respC8w).output.pyRepr = (envC8.runShell c).2.1 ∧
      (((perform_action envC8 respC8w).output.entries).lookup "stderr").getD ""
        = (envC8.runShell c).2.2) :=
  C8_correction_payload envC8 "one step" sC8w respC8w
    rfl rfl (by decide) rfl (by decide) (by decide)

/-- C9: in interactive confirmation, a free-text override (an answer that is
not approve/skip/quit) re-enters generation with the override text as the
active instruction and leaves the loop state otherwise untouched: the retry
counter, history and correction trace are unchanged, so an override never
consumes a unit of the retry budget. -/
theorem C9_override_keeps_retry_budget (env : AgentEnv) (step : String) (s : LoopState)
    (response : CmdResponse) (raw : String) (rest : List String)
    (hresp : s.cmd_response = some response)
    (herr : response.error = none)
    (hact : (response.commands.isEmpty && toolFalsy response.tool) = false)
    (hinter : env.auto_approve = false)
    (hinputs : s.inputs = raw :: rest)
    (hq : pyLower (if raw = "" then "y" else raw) ≠ "q")
    (hquit : pyLower (if raw = "" then "y" else raw) ≠ "quit")
    (hs : pyLower (if raw = "" then "y" else raw) ≠ "s")
    (hskip : pyLower (if raw = "" then "y" else raw) ≠ "skip")
    (hy : pyLower (if raw = "" then "y" else raw) ≠ "y") :
    step_iter env step s = .next { s with
      user_input := pyLower (if raw = "" then "y" else raw)
      inputs := rest
      cmd_response := env.genNext s.history (pyLower (if raw = "" then "y" else raw))
      regenerations := s.regenerations ++ [pyLower (if raw = "" then "y" else raw)] } ∧
    (step_iter env step s).state.retries = s.retries ∧
    (step_iter env step s).state.history = s.history ∧
    (step_iter env step s).state.corrections = s.corrections := by
  have hi : step_iter env step s = .next { s with
      user_input := pyLower (if raw = "" then "y" else raw)
      inputs := rest
      cmd_response := env.genNext s.history (pyLower (if raw = "" then "y" else raw))
      regenerations := s.regenerations ++ [pyLower (if raw = "" then "y" else raw)] } := by
    rw [step_iter, hresp]
    simp only [herr, Option.isSome_none, Bool.false_eq_true, if_false, hact, hinter,
      Bool.not_false, if_true, hinputs, List.headD_cons, List.tail_cons]
    simp [hq, hquit, hs, hskip, hy]
  exact ⟨hi, by rw [hi]; rfl, by rw [hi]; rfl, by rw [hi]; rfl⟩

/-- C9 witness: the override "use tar instead" at a concrete interactive
state with retries = 1. -/
theorem C9_witness :
    step_iter envC9w "list" sC9w = .next { sC9w with
      user_input := pyLower (if "use tar instead" = "" then "y" else "use tar instead")
      inputs := []
      cmd_response := envC9w.genNext sC9w.history
        (pyLower (if "use tar instead" = "" then "y" else "use tar instead"))
      regenerations := sC9w.regenerations ++
        [pyLower (if "use tar instead" = "" then "y" else "use tar instead")] } ∧
    (step_iter envC9w "list" sC9w).state.retries = sC9w.retries ∧
    (step_iter envC9w "list" sC9w).state.history = sC9w.history ∧
    (step_iter envC9w "list" sC9w).state.corrections = sC9w.corrections :=
  C9_override_keeps_retry_budget envC9w "list" sC9w respC9w "use tar instead" []
    rfl rfl (by decide) rfl rfl (by decide) (by decide) (by decide) (by decide)
    (by decide)

/-- C10: a policy mapping lacking the allow_shell_commands key denies every
shell action, and one lacking the allow_tool_usage key denies every tool
action — dict.get with default False treats absence as false at vet time —
while the built-in default policy sets both flags to true. -/
theorem C10_missing_allow_flags_deny (cwd : String) (p : SecurityPolicy)
    (cmds : List String) (t : String) (args : List (String × String)) :
    (p.allow_shell_commands = none →
      is_action_allowed cwd p (.shell cmds) =
        (false, "Shell command execution is disabled by the security policy.")) ∧
    (p.allow_tool_usage = none →
      is_action_allowed cwd p (.tool t args) =
        (false, "Tool usage is disabled by the security policy.")) ∧
    get_default_policy.allow_shell_commands = some true ∧
    get_default_policy.allow_tool_usage = some true := by
  refine ⟨fun h => ?_, fun h => ?_, rfl, rfl⟩
  · simp [is_action_allowed, h]
  · simp [is_action_allowed, h]

/-- C10 witness: the empty policy (both keys absent) denies a shell and a tool
action. -/
theorem C10_witness :
    (({} : SecurityPolicy).allow_shell_commands = none →
      is_action_allowed "/" {} (.shell ["ls"]) =
        (false, "Shell command execution is disabled by the security policy.")) ∧
    (({} : SecurityPolicy).allow_tool_usage = none →
      is_action_allowed "/" {} (.tool "read_file" []) =
        (false, "Tool usage is disabled by the security policy.")) ∧
    get_default_policy.allow_shell_commands = some true ∧
    get_default_policy.allow_tool_usage = some true :=
  C10_missing_allow_flags_deny "/" {} ["ls"] "read_file" []
